import Mathlib

/-!
Verification of the injury-prediction data generator (datagen-core).

The Rust source is shallowly embedded: `f64` values are modelled as `ℚ`
(the claims under scrutiny only involve exact arithmetic, comparisons and
clamping, all of which the source performs on literal-derived values),
`Vec<f64>` as `List ℚ`, fallible/panicking paths are kept out of the
domain by explicit hypotheses, and random draws (`rng.gen()`,
`Normal::sample`, jitter draws) are passed in as explicit parameters, so
every source function becomes a deterministic Lean function of its inputs
and its draws.
-/

/-- Rust `f64::clamp(lo, hi)` (for `lo ≤ hi`, the only way it is called). -/
def f64_clamp (x lo hi : ℚ) : ℚ := min (max x lo) hi

/-! ## config.rs -/

/-- The `InjuryModelConfig` from `config.rs` (all fields). -/
structure InjuryModelConfig where
  acwr_danger_threshold : ℚ
  acwr_caution_threshold : ℚ
  acwr_undertrained_threshold : ℚ
  base_injury_probability : ℚ
  max_injury_probability : ℚ
  acwr_danger_multiplier : ℚ
  acwr_caution_multiplier : ℚ
  acwr_undertrained_multiplier : ℚ
  fatigue_high_threshold : ℚ
  fatigue_moderate_threshold : ℚ
  form_high_risk_threshold : ℚ
  form_moderate_risk_threshold : ℚ
  spike_high_threshold : ℚ
  spike_moderate_threshold : ℚ

/-- The `InjuryModelConfig::default()` from `config.rs`. -/
def InjuryModelConfig.default : InjuryModelConfig where
  acwr_danger_threshold := 1.5
  acwr_caution_threshold := 1.3
  acwr_undertrained_threshold := 0.8
  base_injury_probability := 0.005
  max_injury_probability := 0.30
  acwr_danger_multiplier := 0.15
  acwr_caution_multiplier := 0.05
  acwr_undertrained_multiplier := 0.03
  fatigue_high_threshold := 120
  fatigue_moderate_threshold := 100
  form_high_risk_threshold := -30
  form_moderate_risk_threshold := -20
  spike_high_threshold := 2.0
  spike_moderate_threshold := 1.5

/-- The `TrainingModelConfig` from `config.rs`. -/
structure TrainingModelConfig where
  ctl_time_constant : ℚ
  atl_time_constant : ℚ
  acwr_acute_window : ℕ
  acwr_chronic_window : ℕ
  tss_per_hour : ℚ

/-- The `TrainingModelConfig::default()` from `config.rs`. -/
def TrainingModelConfig.default : TrainingModelConfig where
  ctl_time_constant := 42.0
  atl_time_constant := 7.0
  acwr_acute_window := 7
  acwr_chronic_window := 28
  tss_per_hour := 60.0

/-! ## athlete/types.rs

Only the fields consumed by the functions embedded here are modelled
(`recovery_rate` by the injury model, `lifestyle.exercise` by the
completion-rate computation); the remaining profile fields (identity,
heart-rate data, performance metrics, ...) never enter those computations.
-/

/-- The `exercise` adherence factor of `LifestyleProfile` (athlete/lifestyle.rs). -/
structure LifestyleProfile where
  exercise : ℚ

/-- The `Athlete` from `athlete/types.rs`, restricted to the consumed fields. -/
structure Athlete where
  recovery_rate : ℚ
  lifestyle : LifestyleProfile

/-! ## training/metrics.rs -/

/-- The `TrainingState` from `training/metrics.rs`. -/
structure TrainingState where
  tss_history : List ℚ
  hrv_history : List ℚ
  ctl : ℚ
  atl : ℚ
  tsb : ℚ
  acwr : ℚ
  config : TrainingModelConfig

/-- The `TrainingState::with_config` from `training/metrics.rs`. -/
def TrainingState.with_config (config : TrainingModelConfig) : TrainingState where
  tss_history := List.replicate config.acwr_chronic_window 0
  hrv_history := List.replicate config.acwr_chronic_window 60
  ctl := 0
  atl := 0
  tsb := 0
  acwr := 1.0
  config := config

/-- The `TrainingState::new_with_config` from `training/metrics.rs`. -/
def TrainingState.new_with_config (initial_ctl initial_hrv : ℚ)
    (config : TrainingModelConfig) : TrainingState where
  tss_history := List.replicate config.acwr_chronic_window (initial_ctl * 0.8)
  hrv_history := List.replicate config.acwr_chronic_window initial_hrv
  ctl := initial_ctl
  atl := initial_ctl * 0.9
  tsb := initial_ctl * 0.1
  acwr := 1.0
  config := config

/-- The `TrainingState::update` from `training/metrics.rs`.  `Vec::remove(0)`
followed by `push` is `List.drop 1 ++ [.]`; `remove(0)` panics on an empty
vector, so states with empty histories lie outside the modelled domain
(the theorems below carry the corresponding nonemptiness hypotheses). -/
def TrainingState.update (s : TrainingState) (daily_tss daily_hrv : ℚ) : TrainingState :=
  let tss_history := s.tss_history.drop 1 ++ [daily_tss]
  let hrv_history := s.hrv_history.drop 1 ++ [daily_hrv]
  let ctl := s.ctl + (daily_tss - s.ctl) / s.config.ctl_time_constant
  let atl := s.atl + (daily_tss - s.atl) / s.config.atl_time_constant
  let tsb := ctl - atl
  let acute_window := s.config.acwr_acute_window
  let chronic_window := s.config.acwr_chronic_window
  let acute_load : ℚ := (tss_history.reverse.take acute_window).sum / (acute_window : ℚ)
  let chronic_load : ℚ := tss_history.sum / (chronic_window : ℚ)
  let acwr := if chronic_load > 0 then acute_load / chronic_load else 1
  { tss_history := tss_history, hrv_history := hrv_history,
    ctl := ctl, atl := atl, tsb := tsb, acwr := acwr, config := s.config }

/-- Iterated `update` calls (one per simulated day). -/
def TrainingState.updates (s : TrainingState) : List (ℚ × ℚ) → TrainingState
  | [] => s
  | (t, h) :: rest => (s.update t h).updates rest

/-- The `TrainingState::rolling_tss_7day` from `training/metrics.rs`. -/
def TrainingState.rolling_tss_7day (s : TrainingState) : ℚ :=
  let window := min s.config.acwr_acute_window s.tss_history.length
  (s.tss_history.reverse.take window).sum / (window : ℚ)

/-! ## injury/probability.rs -/

/-- The `calculate_acwr_risk` from `injury/probability.rs`. -/
def calculate_acwr_risk (acwr : ℚ) (config : InjuryModelConfig) : ℚ :=
  if acwr > config.acwr_danger_threshold then
    (acwr - config.acwr_danger_threshold) * config.acwr_danger_multiplier
  else if acwr > config.acwr_caution_threshold then
    (acwr - config.acwr_caution_threshold) * config.acwr_caution_multiplier
  else if acwr < config.acwr_undertrained_threshold then
    (config.acwr_undertrained_threshold - acwr) * config.acwr_undertrained_multiplier
  else
    0

/-- The `calculate_fatigue_risk` from `injury/probability.rs`. -/
def calculate_fatigue_risk (atl : ℚ) (config : InjuryModelConfig) : ℚ :=
  if atl > config.fatigue_high_threshold then
    (atl - config.fatigue_high_threshold) / 300
  else if atl > config.fatigue_moderate_threshold then
    (atl - config.fatigue_moderate_threshold) / 500
  else
    0

/-- The `calculate_form_risk` from `injury/probability.rs`. -/
def calculate_form_risk (tsb : ℚ) (config : InjuryModelConfig) : ℚ :=
  if tsb < config.form_high_risk_threshold then
    (-tsb - (-config.form_high_risk_threshold)) / 150
  else if tsb < config.form_moderate_risk_threshold then
    (-tsb - (-config.form_moderate_risk_threshold)) / 300
  else
    0

/-- The `calculate_spike_risk` from `injury/probability.rs`. -/
def calculate_spike_risk (daily_tss : ℚ) (training_state : TrainingState)
    (config : InjuryModelConfig) : ℚ :=
  let recent_avg := training_state.rolling_tss_7day
  if recent_avg > 0 then
    let spike_ratio := daily_tss / recent_avg
    if spike_ratio > config.spike_high_threshold then
      (spike_ratio - config.spike_high_threshold) * 0.05
    else if spike_ratio > config.spike_moderate_threshold then
      (spike_ratio - config.spike_moderate_threshold) * 0.02
    else
      0
  else
    0

/-- The `calculate_injury_probability` from `injury/probability.rs`. -/
def calculate_injury_probability (athlete : Athlete) (training_state : TrainingState)
    (actual_tss : ℚ) (config : InjuryModelConfig) : ℚ :=
  if actual_tss ≤ 0 then 0
  else
    let injury_prob := config.base_injury_probability
    let acwr_risk := calculate_acwr_risk training_state.acwr config
    let fatigue_risk := calculate_fatigue_risk training_state.atl config
    let form_risk := calculate_form_risk training_state.tsb config
    let spike_risk := calculate_spike_risk actual_tss training_state config
    let recovery_modifier := 1.5 - athlete.recovery_rate
    let injury_prob :=
      injury_prob + (acwr_risk + fatigue_risk + form_risk + spike_risk) * recovery_modifier
    f64_clamp injury_prob 0 config.max_injury_probability

/-! ## simulation/daily.rs -/

/-- The `InjuryType` from `simulation/types.rs`. -/
inductive InjuryType where
  | Physiological
  | Exposure
  | Baseline
deriving DecidableEq, Repr

/-- The `calculate_injury_with_config` from `simulation/daily.rs`.  The single
consumed random draw `rng.gen::<f64>()` (uniform on `[0,1)`) is the
explicit `roll` parameter. -/
def calculate_injury_with_config (athlete : Athlete) (training_state : TrainingState)
    (actual_tss : ℚ) (config : InjuryModelConfig) (roll : ℚ) :
    Bool × Option InjuryType × ℚ :=
  let injury_prob := calculate_injury_probability athlete training_state actual_tss config
  let injury : Bool := decide (roll < injury_prob)
  let injury_type : Option InjuryType :=
    if injury then
      if training_state.acwr > config.acwr_danger_threshold then
        some InjuryType.Exposure
      else if training_state.atl > config.fatigue_high_threshold then
        some InjuryType.Physiological
      else
        some InjuryType.Baseline
    else
      none
  (injury, injury_type, injury_prob)

/-! ## training/types.rs and training/plan.rs -/

/-- The `TrainingPhase` from `training/types.rs`. -/
inductive TrainingPhase where
  | Base
  | Build
  | Peak
  | RacePrep
  | Race
  | Taper
  | Recovery
  | OffSeason
  | Transition
deriving DecidableEq, Repr

/-- The `Sport` from `training/types.rs`. -/
inductive Sport where
  | Swim
  | Bike
  | Run
  | Strength
deriving DecidableEq, Repr

/-- The `chrono::NaiveDate`: a proleptic-Gregorian calendar date. -/
structure NaiveDate where
  y : ℤ
  m : ℕ
  d : ℕ
deriving DecidableEq, Repr

/-- Day count of a civil date (days since 1970-01-01, Howard Hinnant's
`days_from_civil` algorithm, the standard model of calendar-date
arithmetic; `chrono` date subtraction and ordering agree with it).
`Int.div` is truncating division, as in the reference algorithm. -/
def days_from_civil (y : ℤ) (m d : ℕ) : ℤ :=
  let y := if m ≤ 2 then y - 1 else y
  let era := Int.tdiv (if 0 ≤ y then y else y - 399) 400
  let yoe := y - era * 400
  let mp := (m + 9) % 12
  let doy := (153 * mp + 2) / 5 + d - 1
  let doe := yoe * 365 + Int.tdiv yoe 4 - Int.tdiv yoe 100 + (doy : ℤ)
  era * 146097 + doe - 719468

/-- Serial day number of a `NaiveDate`. -/
def NaiveDate.toDays (date : NaiveDate) : ℤ := days_from_civil date.y date.m date.d

/-- The `Iterator::min` over a list (Rust returns `None` on an empty iterator). -/
def minOfList : List ℤ → Option ℤ
  | [] => none
  | x :: xs =>
    match minOfList xs with
    | none => some x
    | some m => some (min x m)

/-- The `days_to_race` computation inside `determine_phase`
(training/plan.rs): minimum of `(r - date).num_days()` over the races `r`
with `r >= date`. -/
def days_to_race (date : NaiveDate) (race_dates : List NaiveDate) : Option ℤ :=
  minOfList ((race_dates.filter (fun r => date.toDays ≤ r.toDays)).map
    (fun r => r.toDays - date.toDays))

/-- The `determine_phase` from `training/plan.rs`.  The Rust `match` arms
`Some(0)`, `Some(1..=3)`, `Some(4..=14)`, `Some(15..=42)`, `Some(43..=84)`
are rendered as guarded conditions; every remaining case (`None`, and
`Some(d)` for any other `d`) falls to the month-based table, exactly as
the catch-all `_` arm does. -/
def determine_phase (date : NaiveDate) (race_dates : List NaiveDate) : TrainingPhase :=
  let dtr := days_to_race date race_dates
  let month := date.m
  let fallback :=
    if month = 12 ∨ month = 1 then TrainingPhase.OffSeason
    else if month = 2 ∨ month = 3 then TrainingPhase.Base
    else if month = 10 ∨ month = 11 then TrainingPhase.Recovery
    else TrainingPhase.Build
  match dtr with
  | none => fallback
  | some d =>
    if d = 0 then TrainingPhase.Race
    else if 1 ≤ d ∧ d ≤ 3 then TrainingPhase.RacePrep
    else if 4 ≤ d ∧ d ≤ 14 then TrainingPhase.Taper
    else if 15 ≤ d ∧ d ≤ 42 then TrainingPhase.Peak
    else if 43 ≤ d ∧ d ≤ 84 then TrainingPhase.Build
    else fallback

/-- Does any race of the calendar lie on or after `date` (the filter
condition of `days_to_race`)? -/
def future_race_exists (date : NaiveDate) (race_dates : List NaiveDate) : Bool :=
  race_dates.any (fun r => decide (date.toDays ≤ r.toDays))

/-- The month-based fallback table of `determine_phase`, as a standalone
function (for stating when the fallback is what the phase evaluates to). -/
def month_fallback_phase (month : ℕ) : TrainingPhase :=
  if month = 12 ∨ month = 1 then TrainingPhase.OffSeason
  else if month = 2 ∨ month = 3 then TrainingPhase.Base
  else if month = 10 ∨ month = 11 then TrainingPhase.Recovery
  else TrainingPhase.Build

/-- The `WorkoutSpec` from `training/types.rs` (the `name : String` label is
omitted: it is a human-readable tag never used in any computation). -/
structure WorkoutSpec where
  sport : Sport
  duration_minutes : ℚ
  tss_per_hour : ℚ
  intensity_factor : ℚ
deriving DecidableEq, Repr

/-- The `TrainingDay` from `training/types.rs` (the display-only
`day_of_week`/`week_number` fields are omitted; they never enter the
computations embedded here). -/
structure TrainingDay where
  date : NaiveDate
  phase : TrainingPhase
  total_tss : ℚ
  swim_tss : ℚ
  bike_tss : ℚ
  run_tss : ℚ
  strength_tss : ℚ
  swim_workout : Option WorkoutSpec
  bike_workout : Option WorkoutSpec
  run_workout : Option WorkoutSpec
  strength_workout : Option WorkoutSpec
  is_rest_day : Bool
  is_race_day : Bool

/-- The `generate_workout_spec` from `training/plan.rs`.  The single random
draw `rng.gen_range(-0.05..0.05)` is the explicit `if_jitter` parameter. -/
def generate_workout_spec (sport : Sport) (tss : ℚ) (phase : TrainingPhase)
    (if_jitter : ℚ) : WorkoutSpec :=
  let base_if : ℚ :=
    match phase with
    | TrainingPhase.Base => 0.65
    | TrainingPhase.Build => 0.75
    | TrainingPhase.Peak => 0.85
    | TrainingPhase.Taper => 0.70
    | _ => 0.70
  let intensity_factor := base_if + if_jitter
  let hours := tss / (intensity_factor ^ 2 * 100)
  let duration_minutes := f64_clamp (hours * 60) 20 300
  let tss_per_hour := if hours > 0 then tss / hours else 50
  { sport := sport, duration_minutes := duration_minutes,
    tss_per_hour := tss_per_hour, intensity_factor := intensity_factor }

/-! ## activity/generator.rs -/

/-- The realized TSS of one generated activity: `generate_swim_activity`,
`generate_bike_activity` and `generate_run_activity` all compute
`intensity^2 * (duration / 60) * 100`, and `generate_strength_activity`
computes `intensity^2 * (duration / 60) * 50`, from the day's
`WorkoutSpec`. -/
def activity_tss (spec : WorkoutSpec) : ℚ :=
  match spec.sport with
  | Sport.Strength => spec.intensity_factor ^ 2 * (spec.duration_minutes / 60) * 50
  | _ => spec.intensity_factor ^ 2 * (spec.duration_minutes / 60) * 100

/-- One optional workout of `generate_activities`: the activity is
generated when the spec is present and the Bernoulli draw
`rng.gen::<f64>() < completion_rate` (the explicit `draw` flag) succeeds. -/
def workout_activities (spec : Option WorkoutSpec) (draw : Bool) : List ℚ :=
  match spec with
  | some s => if draw then [activity_tss s] else []
  | none => []

/-- The `generate_activities` from `activity/generator.rs`, tracking each
activity by its realized TSS.  Returns the activity loads and the total
actual TSS.  The four inclusion draws are explicit flags. -/
def generate_activities (athlete : Athlete) (training_day : TrainingDay)
    (completion_rate : ℚ) (draw_swim draw_bike draw_run draw_strength : Bool) :
    List ℚ × ℚ :=
  if training_day.is_rest_day ∨ completion_rate < 0.1 then ([], 0)
  else
    let acts :=
      workout_activities training_day.swim_workout draw_swim ++
      workout_activities training_day.bike_workout draw_bike ++
      workout_activities training_day.run_workout draw_run ++
      workout_activities training_day.strength_workout draw_strength
  (acts, acts.sum)

/-- The workout specs present on a training day. -/
def TrainingDay.specs (training_day : TrainingDay) : List WorkoutSpec :=
  training_day.swim_workout.toList ++ training_day.bike_workout.toList ++
  training_day.run_workout.toList ++ training_day.strength_workout.toList

/-- The day's spec-implied total load: the sum of the realized TSS of
every workout spec present on the day (what a fully completed day with
every inclusion draw succeeding yields). -/
def planned_spec_tss (training_day : TrainingDay) : ℚ :=
  (training_day.specs.map activity_tss).sum

/-! ## simulation/year.rs -/

/-- The `calculate_completion_rate` from `simulation/year.rs`.  The Gaussian
draw `Normal::new(0.0, 0.05).sample(rng)` is the explicit `noise`
parameter. -/
def calculate_completion_rate (athlete : Athlete) (training_state : TrainingState)
    (training_day : TrainingDay) (noise : ℚ) : ℚ :=
  if training_day.is_rest_day then 0
  else
    let base_rate : ℚ := 0.95
    let base_rate :=
      if training_state.atl > 100 then base_rate - (training_state.atl - 100) / 500
      else base_rate
    let base_rate :=
      if training_state.tsb < -30 then base_rate - (-training_state.tsb - 30) / 200
      else base_rate
    let base_rate := base_rate * athlete.lifestyle.exercise
    let base_rate := base_rate + noise
    if training_day.is_race_day then 1
    else f64_clamp base_rate 0 1

/-! ## lib.rs: parallel dataset generation

`generate_dataset_parallel` runs two `rayon` parallel maps over the
athlete-index space.  A `rayon` `par_iter().map(f).collect()` is modelled
at the scheduling level: the pool completes the index tasks in some
arbitrary order (a `List ℕ`, covering every index; pool width only
constrains which orders can arise), each completed task `i` stores
`f i` at slot `i`, and `collect` reads the slots back in index order.

The per-athlete computations are almost, but not entirely, deterministic
functions of their own arguments.  `generate_athlete_profile_with_config`
(athlete/generator.rs) draws every profile field from a fresh
`ChaCha8Rng::seed_from_u64(seed)` — except the athlete id, which is
`Uuid::new_v4().to_string()`: a fresh random v4 UUID drawn from the
process RNG / OS entropy, outside the seeded stream.  That id is emitted
in every output row (`DailyMetrics.athlete_id`, daily.rs:63) and its
bytes feed the downstream seeds: `simulate_full_year_with_config`
(year.rs:28-31) derives the athlete seed as
`base_seed.wrapping_add(sum of id bytes)`, and `generate_annual_plan`
(plan.rs:12) seeds its RNG from that seed plus the first id byte.  The
model therefore threads the UUID draw as an explicit per-index entropy
input, and abstracts the seeded remainder of the profile as `gen` and
the (deterministic, ChaCha8-seeded) year simulation as `simYear`. -/

/-- The `u64::wrapping_add` on the `ℕ` model of `u64`. -/
def wrapping_add_u64 (a b : ℕ) : ℕ := (a + b) % 2 ^ 64

/-- An athlete as produced by `generate_athlete_profile_with_config`: the
id string (modelled by its byte list, drawn from OS entropy) together
with the remaining profile fields (abstracted as `α`, all drawn from the
seeded `ChaCha8Rng`). -/
structure GeneratedAthlete (α : Type) where
  id_bytes : List ℕ
  profile : α

/-- The `generate_athlete_profile_with_config` from `athlete/generator.rs`:
every field except the id is a deterministic function `gen` of the seed
(`ChaCha8Rng::seed_from_u64(seed)`); the id is a fresh v4 UUID
(`Uuid::new_v4().to_string()`), i.e. the `uuid_entropy` input, not a
function of the seed at all. -/
def generate_athlete_profile_with_config {α : Type} (gen : ℕ → α)
    (seed : ℕ) (uuid_entropy : List ℕ) : GeneratedAthlete α :=
  { id_bytes := uuid_entropy, profile := gen seed }

/-- The per-athlete seed derivation of `simulate_full_year_with_config`
(year.rs:28-31): `base_seed.wrapping_add(athlete.id.as_bytes().map(u64).sum())`. -/
def athlete_sim_seed (base_seed : ℕ) (id_bytes : List ℕ) : ℕ :=
  wrapping_add_u64 base_seed id_bytes.sum

/-- The `simulate_full_year_with_config` from `simulation/year.rs`, at the
granularity C2 needs: it seeds a `ChaCha8Rng` (and, via plan.rs:12, the
plan RNG) from `athlete_sim_seed` and from then on is a deterministic
function `simYear` of the profile and that derived seed; its result
carries the athlete (id included) into every daily-metrics row, modelled
by pairing the id bytes with the simulated trajectory. -/
def simulate_full_year_with_config {α β : Type} (simYear : α → ℕ → β)
    (athlete : GeneratedAthlete α) (base_seed : ℕ) : List ℕ × β :=
  (athlete.id_bytes, simYear athlete.profile (athlete_sim_seed base_seed athlete.id_bytes))

/-- The `SimulationConfig` from `lib.rs` (`params` is carried inside `gen`
and `simYear`, which close over the read-only shared configuration). -/
structure SimulationConfig where
  n_athletes : ℕ
  year : ℤ
  seed : ℕ
  threads : ℕ

/-- The completion log of a worker pool running tasks `f` in completion
order `order`: task `i` completes with value `f i`. -/
def completion_log {α : Type} (f : ℕ → α) (order : List ℕ) : List (ℕ × α) :=
  order.map (fun i => (i, f i))

/-- Collect a completion log into the index-ordered result vector
(slot `i` holds the value stored by task `i`, `none` if it never ran). -/
def collect_by_index {α : Type} (n : ℕ) (log : List (ℕ × α)) : List (Option α) :=
  (List.range n).map (fun i => (log.find? (fun p => p.1 == i)).map Prod.snd)

/-- A `rayon` parallel map over indices `0..n`, executed with completion
order `order`. -/
def par_map {α : Type} (n : ℕ) (f : ℕ → α) (order : List ℕ) : List (Option α) :=
  collect_by_index n (completion_log f order)

/-- The `generate_dataset_parallel` from `lib.rs`: athlete profiles are
generated from per-index seeds `seed.wrapping_add(i)` — plus the
per-athlete UUID entropy draw — in one parallel map, then each athlete's
year is simulated in a second parallel map over the collected profiles.
`config.threads` only sizes the worker pool
(`ThreadPoolBuilder::num_threads`): it appears in no per-athlete
computation, which the two completion orders already range over.  The
`uuid_entropy` stream assigns each index the v4 UUID its profile task
draws; it is an input of the run, not of the configuration. -/
def generate_dataset_parallel {α β : Type} (gen : ℕ → α) (simYear : α → ℕ → β)
    (config : SimulationConfig) (uuid_entropy : ℕ → List ℕ)
    (profile_order sim_order : List ℕ) : List (Option (List ℕ × β)) :=
  let athletes : List (Option (GeneratedAthlete α)) :=
    par_map config.n_athletes
      (fun i => generate_athlete_profile_with_config gen (wrapping_add_u64 config.seed i)
        (uuid_entropy i))
      profile_order
  let results : List (Option (Option (List ℕ × β))) :=
    par_map config.n_athletes
      (fun i => Option.map (fun a => simulate_full_year_with_config simYear a config.seed)
        (athletes.getD i none))
      sim_order
  results.map (fun r => r.getD none)

/-! ## Helper lemmas -/

/-- Appending todays value to the shifted window preserves a positive length. -/
theorem update_tss_history_eq (s : TrainingState) (t h : ℚ) :
    (s.update t h).tss_history = s.tss_history.drop 1 ++ [t] := rfl

/-- The recovery-signal window after an update. -/
theorem update_hrv_history_eq (s : TrainingState) (t h : ℚ) :
    (s.update t h).hrv_history = s.hrv_history.drop 1 ++ [h] := rfl

/-- An update never touches the configuration. -/
theorem update_config_eq (s : TrainingState) (t h : ℚ) :
    (s.update t h).config = s.config := rfl

/-- The upper clamp bound always dominates the clamped value. -/
theorem f64_clamp_le_hi (x lo hi : ℚ) : f64_clamp x lo hi ≤ hi := min_le_right _ _

/-! ## C1: zero-load guard -/

/-- C1: For every athlete, every workload state (however extreme), and
every configuration, if the realized load is at most 0 then
`calculate_injury_probability` returns exactly 0, and the daily injury
occurrence produced from it by `calculate_injury_with_config` is `false`
with no injury type assigned (for any uniform draw `roll ∈ [0,1)`, of
which only `0 ≤ roll` is needed). -/
theorem zero_load_guard (athlete : Athlete) (training_state : TrainingState)
    (actual_tss : ℚ) (config : InjuryModelConfig) (roll : ℚ)
    (hload : actual_tss ≤ 0) (hroll : 0 ≤ roll) :
    calculate_injury_probability athlete training_state actual_tss config = 0 ∧
    calculate_injury_with_config athlete training_state actual_tss config roll =
      (false, none, 0) := by
  have hp : calculate_injury_probability athlete training_state actual_tss config = 0 := by
    simp [calculate_injury_probability, hload]
  refine ⟨hp, ?_⟩
  simp [calculate_injury_with_config, hp, not_lt.mpr hroll]

/-- Witness for C1 at an extreme workload state (ACWR = 5, ATL = 999)
with zero realized load. -/
theorem zero_load_guard_witness :
    calculate_injury_probability ⟨0.5, ⟨0.9⟩⟩ ⟨[999], [60], 0, 999, -50, 5, TrainingModelConfig.default⟩
      0 InjuryModelConfig.default = 0 ∧
    calculate_injury_with_config ⟨0.5, ⟨0.9⟩⟩ ⟨[999], [60], 0, 999, -50, 5, TrainingModelConfig.default⟩
      0 InjuryModelConfig.default (1/2) = (false, none, 0) :=
  zero_load_guard _ _ _ _ _ (by norm_num) (by norm_num)

/-! ## C7: probability formula and cap -/

/-- C7: For every athlete, workload state, positive realized load and
configuration, `calculate_injury_probability` equals the base probability
plus the sum of the four risk contributions times the recovery modifier
`1.5 - recovery_rate`, clamped to `[0, max_injury_probability]`; in
particular it never exceeds the configured maximum. -/
theorem probability_formula_and_cap (athlete : Athlete) (training_state : TrainingState)
    (actual_tss : ℚ) (config : InjuryModelConfig) (h : 0 < actual_tss) :
    calculate_injury_probability athlete training_state actual_tss config =
      f64_clamp
        (config.base_injury_probability +
          (calculate_acwr_risk training_state.acwr config +
           calculate_fatigue_risk training_state.atl config +
           calculate_form_risk training_state.tsb config +
           calculate_spike_risk actual_tss training_state config) *
          (1.5 - athlete.recovery_rate))
        0 config.max_injury_probability ∧
    calculate_injury_probability athlete training_state actual_tss config ≤
      config.max_injury_probability := by
  have hne : ¬ actual_tss ≤ 0 := not_le.mpr h
  constructor
  · simp [calculate_injury_probability, hne]
  · simp only [calculate_injury_probability, if_neg hne]
    exact f64_clamp_le_hi _ _ _

/-- Witness for C7 at a combination of extreme inputs (ACWR = 10,
ATL = 500, TSB = -200, spike ratio 50 against a 7-day rolling average of
2) under the default configuration: the probability stays at or below the
default maximum 0.30. -/
theorem probability_cap_witness :
    (0 : ℚ) < 100 ∧
    calculate_injury_probability ⟨0.5, ⟨0.9⟩⟩
      ⟨List.replicate 28 2, List.replicate 28 60, 0, 500, -200, 10, TrainingModelConfig.default⟩
      100 InjuryModelConfig.default ≤ InjuryModelConfig.default.max_injury_probability :=
  ⟨by norm_num,
   (probability_formula_and_cap ⟨0.5, ⟨0.9⟩⟩
     ⟨List.replicate 28 2, List.replicate 28 60, 0, 500, -200, 10, TrainingModelConfig.default⟩
     100 InjuryModelConfig.default (by norm_num)).2⟩

/-! ## C8: neutral-zone invariant -/

/-- C8: With the default injury configuration (undertrained threshold
0.8, caution threshold 1.3), the ACWR risk contribution is exactly 0 for
every ACWR in the closed interval [0.8, 1.3]. -/
theorem acwr_neutral_zone (acwr : ℚ) (h1 : 0.8 ≤ acwr) (h2 : acwr ≤ 1.3) :
    calculate_acwr_risk acwr InjuryModelConfig.default = 0 := by
  simp only [calculate_acwr_risk, InjuryModelConfig.default]
  split_ifs with hA hB hC
  · exact absurd hA (by push_neg; linarith)
  · exact absurd hB (by push_neg; linarith)
  · exact absurd hC (by push_neg; linarith)
  · rfl

/-- Witness for C8 at ACWR = 1.0. -/
theorem acwr_neutral_zone_witness :
    (0.8 : ℚ) ≤ 1 ∧ (1 : ℚ) ≤ 1.3 ∧
    calculate_acwr_risk 1 InjuryModelConfig.default = 0 :=
  ⟨by norm_num, by norm_num, acwr_neutral_zone 1 (by norm_num) (by norm_num)⟩

/-! ## C10: injury-type classification -/

/-- C10: Whenever the Bernoulli draw indicates an injury occurred
(`roll < probability`), `calculate_injury_with_config` assigns type
Exposure if the current ACWR exceeds the danger threshold, else
Physiological if the current ATL exceeds the fatigue-high threshold, else
Baseline; when the draw indicates no injury, no type is assigned. -/
theorem injury_type_classification (athlete : Athlete) (training_state : TrainingState)
    (actual_tss : ℚ) (config : InjuryModelConfig) (roll : ℚ) :
    (roll < calculate_injury_probability athlete training_state actual_tss config →
      calculate_injury_with_config athlete training_state actual_tss config roll =
        (true,
         if training_state.acwr > config.acwr_danger_threshold then
           some InjuryType.Exposure
         else if training_state.atl > config.fatigue_high_threshold then
           some InjuryType.Physiological
         else
           some InjuryType.Baseline,
         calculate_injury_probability athlete training_state actual_tss config)) ∧
    (¬ roll < calculate_injury_probability athlete training_state actual_tss config →
      calculate_injury_with_config athlete training_state actual_tss config roll =
        (false, none,
         calculate_injury_probability athlete training_state actual_tss config)) := by
  constructor <;> intro h <;> simp [calculate_injury_with_config, h]

/-- Witness for C10: a draw below the probability at a state whose ACWR
exceeds the danger threshold yields an Exposure-typed injury. -/
theorem injury_type_classification_witness :
    (1/10 : ℚ) < calculate_injury_probability ⟨0.5, ⟨0.9⟩⟩
      ⟨[2], [60], 0, 500, -200, 10, TrainingModelConfig.default⟩ 100 InjuryModelConfig.default ∧
    calculate_injury_with_config ⟨0.5, ⟨0.9⟩⟩
      ⟨[2], [60], 0, 500, -200, 10, TrainingModelConfig.default⟩ 100 InjuryModelConfig.default (1/10) =
      (true,
       if (10 : ℚ) > InjuryModelConfig.default.acwr_danger_threshold then
         some InjuryType.Exposure
       else if (500 : ℚ) > InjuryModelConfig.default.fatigue_high_threshold then
         some InjuryType.Physiological
       else
         some InjuryType.Baseline,
       calculate_injury_probability ⟨0.5, ⟨0.9⟩⟩
         ⟨[2], [60], 0, 500, -200, 10, TrainingModelConfig.default⟩ 100 InjuryModelConfig.default) :=
  have hprob : (1/10 : ℚ) < calculate_injury_probability ⟨0.5, ⟨0.9⟩⟩
      ⟨[2], [60], 0, 500, -200, 10, TrainingModelConfig.default⟩ 100 InjuryModelConfig.default := by
    norm_num [calculate_injury_probability, calculate_acwr_risk, calculate_fatigue_risk,
      calculate_form_risk, calculate_spike_risk, TrainingState.rolling_tss_7day,
      f64_clamp, min_def, max_def, InjuryModelConfig.default, TrainingModelConfig.default]
  ⟨hprob,
   (injury_type_classification ⟨0.5, ⟨0.9⟩⟩
     ⟨[2], [60], 0, 500, -200, 10, TrainingModelConfig.default⟩ 100 InjuryModelConfig.default
     (1/10)).1 hprob⟩

/-! ## C6: window-length invariant -/

/-- C6: For every `TrainingState` whose two history windows both have
length equal to the configured chronic window (positive, as any window
`update` can run on must be — `Vec::remove(0)` panics on an empty
vector), after any number of `update` calls both windows still have
length exactly the configured chronic window, and the configuration
itself is unchanged. -/
theorem window_length_invariant (s : TrainingState) (days : List (ℚ × ℚ))
    (ht : s.tss_history.length = s.config.acwr_chronic_window)
    (hh : s.hrv_history.length = s.config.acwr_chronic_window)
    (hw : 0 < s.config.acwr_chronic_window) :
    (s.updates days).tss_history.length = s.config.acwr_chronic_window ∧
    (s.updates days).hrv_history.length = s.config.acwr_chronic_window := by
  induction days generalizing s with
  | nil => exact ⟨ht, hh⟩
  | cons day rest ih =>
    obtain ⟨t, h⟩ := day
    have h1 : (s.update t h).tss_history.length = (s.update t h).config.acwr_chronic_window := by
      rw [update_tss_history_eq, update_config_eq]
      simp only [List.length_append, List.length_drop, List.length_cons, List.length_nil]
      omega
    have h2 : (s.update t h).hrv_history.length = (s.update t h).config.acwr_chronic_window := by
      rw [update_hrv_history_eq, update_config_eq]
      simp only [List.length_append, List.length_drop, List.length_cons, List.length_nil]
      omega
    have hw2 : 0 < (s.update t h).config.acwr_chronic_window := by
      rw [update_config_eq]; exact hw
    exact ih (s.update t h) h1 h2 hw2

/-- Witness for C6: the default-configured state (chronic window 28)
keeps both windows at length 28 across three updates. -/
theorem window_length_invariant_witness :
    (TrainingState.with_config TrainingModelConfig.default).tss_history.length =
      (TrainingState.with_config TrainingModelConfig.default).config.acwr_chronic_window ∧
    (TrainingState.with_config TrainingModelConfig.default).hrv_history.length =
      (TrainingState.with_config TrainingModelConfig.default).config.acwr_chronic_window ∧
    0 < (TrainingState.with_config TrainingModelConfig.default).config.acwr_chronic_window ∧
    ((TrainingState.with_config TrainingModelConfig.default).updates
        [(50, 60), (0, 55), (75, 58)]).tss_history.length =
      (TrainingState.with_config TrainingModelConfig.default).config.acwr_chronic_window ∧
    ((TrainingState.with_config TrainingModelConfig.default).updates
        [(50, 60), (0, 55), (75, 58)]).hrv_history.length =
      (TrainingState.with_config TrainingModelConfig.default).config.acwr_chronic_window :=
  have h1 : (TrainingState.with_config TrainingModelConfig.default).tss_history.length =
      (TrainingState.with_config TrainingModelConfig.default).config.acwr_chronic_window := by
    simp [TrainingState.with_config]
  have h2 : (TrainingState.with_config TrainingModelConfig.default).hrv_history.length =
      (TrainingState.with_config TrainingModelConfig.default).config.acwr_chronic_window := by
    simp [TrainingState.with_config]
  have h3 : 0 < (TrainingState.with_config TrainingModelConfig.default).config.acwr_chronic_window := by
    simp [TrainingState.with_config, TrainingModelConfig.default]
  ⟨h1, h2, h3,
   (window_length_invariant (TrainingState.with_config TrainingModelConfig.default)
     [(50, 60), (0, 55), (75, 58)] h1 h2 h3).1,
   (window_length_invariant (TrainingState.with_config TrainingModelConfig.default)
     [(50, 60), (0, 55), (75, 58)] h1 h2 h3).2⟩

/-! ## C9: ACWR definition after update -/

/-- C9: After every `update` call (on a state with a positive chronic
window and a nonnegative load history, which every state arising in the
simulation has: realized loads are sums of nonnegative activity TSS
values), the stored ACWR equals the mean of the most recent acute-window
entries of the load history divided by the mean of the full chronic
window, except that when the chronic-window mean is exactly 0 the ACWR is
1; the division is never performed on a zero denominator. -/
theorem acwr_after_update (s : TrainingState) (t h : ℚ)
    (hw : 0 < s.config.acwr_chronic_window)
    (hnn : ∀ x ∈ s.tss_history, 0 ≤ x) (ht : 0 ≤ t) :
    (s.update t h).acwr =
      if (s.update t h).tss_history.sum / (s.config.acwr_chronic_window : ℚ) = 0 then 1
      else
        ((s.update t h).tss_history.reverse.take s.config.acwr_acute_window).sum /
            (s.config.acwr_acute_window : ℚ) /
          ((s.update t h).tss_history.sum / (s.config.acwr_chronic_window : ℚ)) := by
  have hist : (s.update t h).tss_history = s.tss_history.drop 1 ++ [t] :=
    update_tss_history_eq s t h
  have hacwr : (s.update t h).acwr =
      if (s.tss_history.drop 1 ++ [t]).sum / (s.config.acwr_chronic_window : ℚ) > 0 then
        ((s.tss_history.drop 1 ++ [t]).reverse.take s.config.acwr_acute_window).sum /
            (s.config.acwr_acute_window : ℚ) /
          ((s.tss_history.drop 1 ++ [t]).sum / (s.config.acwr_chronic_window : ℚ))
      else 1 := rfl
  have hsum : 0 ≤ (s.tss_history.drop 1 ++ [t]).sum := by
    apply List.sum_nonneg
    intro x hx
    rcases List.mem_append.mp hx with hx | hx
    · exact hnn x (List.mem_of_mem_drop hx)
    · rw [List.mem_singleton.mp hx]; exact ht
  have hmean : 0 ≤ (s.tss_history.drop 1 ++ [t]).sum / (s.config.acwr_chronic_window : ℚ) :=
    div_nonneg hsum (by positivity)
  rw [hacwr, hist]
  by_cases h0 : (s.tss_history.drop 1 ++ [t]).sum / (s.config.acwr_chronic_window : ℚ) = 0
  · rw [if_neg (by rw [h0]; exact lt_irrefl 0), if_pos h0]
  · rw [if_pos (lt_of_le_of_ne hmean (Ne.symm h0)), if_neg h0]

/-- Witness for C9 on a small concrete state (chronic window 3, acute
window 2): updating `[0, 0, 0]` with load 6 gives history `[0, 0, 6]`,
chronic mean 2, acute mean 3, hence ACWR 3/2. -/
theorem acwr_after_update_witness :
    (0 < (3 : ℕ)) ∧
    ((TrainingState.mk [0, 0, 0] [60, 60, 60] 0 0 0 1 ⟨42, 7, 2, 3, 60⟩).update 6 60).acwr = 3/2 :=
  ⟨by norm_num, by
    rw [acwr_after_update (TrainingState.mk [0, 0, 0] [60, 60, 60] 0 0 0 1 ⟨42, 7, 2, 3, 60⟩)
      6 60 (by norm_num) (by norm_num) (by norm_num)]
    norm_num [update_tss_history_eq]⟩

/-! ## C3: phase bands and month fallback -/

/-- C3 counterexample: on 2024-01-01 a future race exists in the year
(2024-05-01, 121 days ahead), yet `determine_phase` returns `OffSeason` —
the month-based fallback value for January, which no days-to-race band
ever produces (the bands only yield Race, RacePrep, Taper, Peak or
Build).  So the fallback does not apply "exactly when no future race
exists in the year": it also applies whenever the next race is more than
84 days away. -/
theorem phase_fallback_counterexample :
    future_race_exists ⟨2024, 1, 1⟩ [⟨2024, 5, 1⟩] = true ∧
    days_to_race ⟨2024, 1, 1⟩ [⟨2024, 5, 1⟩] = some 121 ∧
    determine_phase ⟨2024, 1, 1⟩ [⟨2024, 5, 1⟩] = TrainingPhase.OffSeason ∧
    determine_phase ⟨2024, 1, 1⟩ [⟨2024, 5, 1⟩] = month_fallback_phase 1 := by
  refine ⟨by decide, by decide, by decide, by decide⟩

/-- C3 (amended): for every calendar date and race calendar, the phase is
determined by days-until-the-next-race via the bands 0 → Race,
[1,3] → RacePrep, [4,14] → Taper, [15,42] → Peak, [43,84] → Build, and
the month-based fallback (Dec/Jan → OffSeason, Feb/Mar → Base,
Oct/Nov → Recovery, other months → Build) applies exactly when no future
race exists within 84 days — that is, when the year holds no future race
at all, or the next one is 85 or more days away. -/
theorem phase_bands (date : NaiveDate) (race_dates : List NaiveDate) :
    (∀ d : ℤ, days_to_race date race_dates = some d →
      (d = 0 → determine_phase date race_dates = TrainingPhase.Race) ∧
      (1 ≤ d → d ≤ 3 → determine_phase date race_dates = TrainingPhase.RacePrep) ∧
      (4 ≤ d → d ≤ 14 → determine_phase date race_dates = TrainingPhase.Taper) ∧
      (15 ≤ d → d ≤ 42 → determine_phase date race_dates = TrainingPhase.Peak) ∧
      (43 ≤ d → d ≤ 84 → determine_phase date race_dates = TrainingPhase.Build) ∧
      (85 ≤ d → determine_phase date race_dates = month_fallback_phase date.m)) ∧
    (days_to_race date race_dates = none →
      determine_phase date race_dates = month_fallback_phase date.m) := by
  constructor
  · intro d hd
    refine ⟨?_, ?_, ?_, ?_, ?_, ?_⟩
    · intro h0
      simp only [determine_phase, hd]
      rw [if_pos h0]
    · intro h1 h2
      simp only [determine_phase, hd]
      rw [if_neg (by omega), if_pos ⟨h1, h2⟩]
    · intro h1 h2
      simp only [determine_phase, hd]
      rw [if_neg (by omega), if_neg (by omega), if_pos ⟨h1, h2⟩]
    · intro h1 h2
      simp only [determine_phase, hd]
      rw [if_neg (by omega), if_neg (by omega), if_neg (by omega), if_pos ⟨h1, h2⟩]
    · intro h1 h2
      simp only [determine_phase, hd]
      rw [if_neg (by omega), if_neg (by omega), if_neg (by omega), if_neg (by omega),
        if_pos ⟨h1, h2⟩]
    · intro h85
      simp only [determine_phase, hd, month_fallback_phase]
      rw [if_neg (by omega), if_neg (by omega), if_neg (by omega), if_neg (by omega),
        if_neg (by omega)]
  · intro hd
    simp only [determine_phase, hd, month_fallback_phase]

/-- Witness for C3 (amended): a race on 2024-06-15 viewed from
2024-06-14 is 1 day away, and the phase is RacePrep. -/
theorem phase_bands_witness :
    days_to_race ⟨2024, 6, 14⟩ [⟨2024, 6, 15⟩] = some 1 ∧
    determine_phase ⟨2024, 6, 14⟩ [⟨2024, 6, 15⟩] = TrainingPhase.RacePrep :=
  ⟨by decide,
   ((phase_bands ⟨2024, 6, 14⟩ [⟨2024, 6, 15⟩]).1 1 (by decide)).2.1
     (by decide) (by decide)⟩

/-! ## C4: race-day completion -/

/-- C4 counterexample: a day flagged both `is_race_day` and
`is_rest_day` (which the plan generator can produce: the rest-day flag is
set for every Monday, or with probability 0.1, independently of the race
calendar) gets completion rate 0, not 1 — the rest-day early return
precedes the race-day check in `calculate_completion_rate`. -/
theorem race_day_completion_counterexample :
    (⟨⟨2024, 6, 3⟩, TrainingPhase.Race, 0, 0, 0, 0, 0, none, none, none, none, true, true⟩ :
        TrainingDay).is_race_day = true ∧
    calculate_completion_rate ⟨0.5, ⟨1⟩⟩ (TrainingState.with_config TrainingModelConfig.default)
      ⟨⟨2024, 6, 3⟩, TrainingPhase.Race, 0, 0, 0, 0, 0, none, none, none, none, true, true⟩ 0 = 0 ∧
    calculate_completion_rate ⟨0.5, ⟨1⟩⟩ (TrainingState.with_config TrainingModelConfig.default)
      ⟨⟨2024, 6, 3⟩, TrainingPhase.Race, 0, 0, 0, 0, 0, none, none, none, none, true, true⟩ 0 ≠ 1 := by
  refine ⟨rfl, by simp [calculate_completion_rate], by simp [calculate_completion_rate]⟩

/-- C4 (amended): for every athlete, workload state and noise draw, a
training day flagged `is_race_day` and not flagged `is_rest_day` gets
completion rate exactly 1; a day flagged `is_rest_day` gets completion
rate 0 even when it is also a race day, because the rest-day early
return runs first. -/
theorem race_day_completion (athlete : Athlete) (training_state : TrainingState)
    (training_day : TrainingDay) (noise : ℚ) :
    (training_day.is_rest_day = false → training_day.is_race_day = true →
      calculate_completion_rate athlete training_state training_day noise = 1) ∧
    (training_day.is_rest_day = true →
      calculate_completion_rate athlete training_state training_day noise = 0) := by
  constructor
  · intro hrest hrace
    simp [calculate_completion_rate, hrest, hrace]
  · intro hrest
    simp [calculate_completion_rate, hrest]

/-- Witness for C4 (amended) on a race day that is not a rest day, with
extreme fatigue (ATL 500) and nonzero noise: the rate is still exactly 1. -/
theorem race_day_completion_witness :
    (⟨⟨2024, 6, 15⟩, TrainingPhase.Race, 0, 0, 0, 0, 0, none, none, none, none, false, true⟩ :
        TrainingDay).is_rest_day = false ∧
    (⟨⟨2024, 6, 15⟩, TrainingPhase.Race, 0, 0, 0, 0, 0, none, none, none, none, false, true⟩ :
        TrainingDay).is_race_day = true ∧
    calculate_completion_rate ⟨0.5, ⟨0.9⟩⟩ ⟨[2], [60], 10, 500, -200, 10, TrainingModelConfig.default⟩
      ⟨⟨2024, 6, 15⟩, TrainingPhase.Race, 0, 0, 0, 0, 0, none, none, none, none, false, true⟩
      (-1/10) = 1 :=
  ⟨rfl, rfl,
   (race_day_completion ⟨0.5, ⟨0.9⟩⟩ ⟨[2], [60], 10, 500, -200, 10, TrainingModelConfig.default⟩
     ⟨⟨2024, 6, 15⟩, TrainingPhase.Race, 0, 0, 0, 0, 0, none, none, none, none, false, true⟩
     (-1/10)).1 rfl rfl⟩

/-! ## C5: realized load vs planned load -/

/-- A clamp to a nonnegative band is nonnegative. -/
theorem f64_clamp_nonneg (x lo hi : ℚ) (hlo : 0 ≤ lo) (hhi : 0 ≤ hi) :
    0 ≤ f64_clamp x lo hi :=
  le_min (hlo.trans (le_max_right x lo)) hhi

/-- An activity's realized TSS is nonnegative whenever its duration is. -/
theorem activity_tss_nonneg (spec : WorkoutSpec) (h : 0 ≤ spec.duration_minutes) :
    0 ≤ activity_tss spec := by
  obtain ⟨sport, dur, tph, inten⟩ := spec
  cases sport <;>
    exact mul_nonneg (mul_nonneg (sq_nonneg _) (div_nonneg h (by norm_num))) (by norm_num)

/-- Durations out of `generate_workout_spec` are clamped to `[20, 300]`
minutes, hence nonnegative. -/
theorem generate_workout_spec_duration_nonneg (sport : Sport) (tss : ℚ)
    (phase : TrainingPhase) (j : ℚ) :
    0 ≤ (generate_workout_spec sport tss phase j).duration_minutes :=
  f64_clamp_nonneg _ 20 300 (by norm_num) (by norm_num)

/-- One optional workout realizes at most its spec-implied TSS. -/
theorem workout_activities_sum_le (spec : Option WorkoutSpec) (draw : Bool)
    (h : ∀ s ∈ spec.toList, 0 ≤ activity_tss s) :
    (workout_activities spec draw).sum ≤ (spec.toList.map activity_tss).sum := by
  cases spec with
  | none => simp [workout_activities]
  | some s =>
    cases draw with
    | true => simp [workout_activities]
    | false =>
      simpa [workout_activities] using h s (by simp)

/-- C5 counterexample: a training day whose planned `total_tss` is 10 and
whose only workout is the swim spec generated for a planned swim TSS of 2
(phase Build, intensity jitter -0.05, so intensity factor 0.7).  The
spec's raw duration, 2/49 hours, is clamped up to the 20-minute minimum,
and the realized activity TSS recomputed from the clamped duration is
0.49 x (20/60) x 100 = 49/3 > 10: the aggregate realized load exceeds the
day's planned `total_tss`. -/
theorem realized_load_counterexample :
    (generate_activities ⟨0.5, ⟨1⟩⟩
        ⟨⟨2024, 4, 2⟩, TrainingPhase.Build, 10, 2, 0, 0, 0,
          some (generate_workout_spec Sport.Swim 2 TrainingPhase.Build (-1/20)),
          none, none, none, false, false⟩ 1 true true true true).2 = 49/3 ∧
    ¬ ((generate_activities ⟨0.5, ⟨1⟩⟩
        ⟨⟨2024, 4, 2⟩, TrainingPhase.Build, 10, 2, 0, 0, 0,
          some (generate_workout_spec Sport.Swim 2 TrainingPhase.Build (-1/20)),
          none, none, none, false, false⟩ 1 true true true true).2 ≤
      (⟨⟨2024, 4, 2⟩, TrainingPhase.Build, 10, 2, 0, 0, 0,
          some (generate_workout_spec Sport.Swim 2 TrainingPhase.Build (-1/20)),
          none, none, none, false, false⟩ : TrainingDay).total_tss) := by
  have hspec : generate_workout_spec Sport.Swim 2 TrainingPhase.Build (-1/20) =
      ⟨Sport.Swim, 20, 49, 7/10⟩ := by
    unfold generate_workout_spec
    norm_num [WorkoutSpec.mk.injEq, f64_clamp, min_def, max_def]
  have hval : (generate_activities ⟨0.5, ⟨1⟩⟩
      ⟨⟨2024, 4, 2⟩, TrainingPhase.Build, 10, 2, 0, 0, 0,
        some (generate_workout_spec Sport.Swim 2 TrainingPhase.Build (-1/20)),
        none, none, none, false, false⟩ 1 true true true true).2 = 49/3 := by
    rw [hspec]
    norm_num [generate_activities, workout_activities, activity_tss]
  refine ⟨hval, ?_⟩
  rw [hval]
  norm_num

/-- C5 (amended): the aggregate realized load returned by
`generate_activities` is at most the day's spec-implied total
`planned_spec_tss` (the sum over the day's workout specs of the realized
TSS each would produce), for any completion rate and inclusion draws —
and every spec produced by `generate_workout_spec` has nonnegative
realized TSS.  Because the 20-minute minimum-duration clamp can raise a
spec's realized TSS above the planned per-discipline TSS it was derived
from, `planned_spec_tss` (not the day's planned `total_tss`) is the tight
structural bound. -/
theorem realized_load_le_spec_implied :
    (∀ (athlete : Athlete) (training_day : TrainingDay) (completion_rate : ℚ)
        (d1 d2 d3 d4 : Bool),
      (∀ spec ∈ training_day.specs, 0 ≤ activity_tss spec) →
      (generate_activities athlete training_day completion_rate d1 d2 d3 d4).2 ≤
        planned_spec_tss training_day) ∧
    (∀ (sport : Sport) (tss : ℚ) (phase : TrainingPhase) (j : ℚ),
      0 ≤ activity_tss (generate_workout_spec sport tss phase j)) := by
  constructor
  · intro athlete day completion_rate d1 d2 d3 d4 hnn
    have hplanned : 0 ≤ planned_spec_tss day := by
      apply List.sum_nonneg
      intro x hx
      obtain ⟨spec, hspec, rfl⟩ := List.mem_map.mp hx
      exact hnn spec hspec
    have h1 : ∀ s ∈ day.swim_workout.toList, 0 ≤ activity_tss s := fun s hs =>
      hnn s (by simp only [TrainingDay.specs, List.mem_append]; tauto)
    have h2 : ∀ s ∈ day.bike_workout.toList, 0 ≤ activity_tss s := fun s hs =>
      hnn s (by simp only [TrainingDay.specs, List.mem_append]; tauto)
    have h3 : ∀ s ∈ day.run_workout.toList, 0 ≤ activity_tss s := fun s hs =>
      hnn s (by simp only [TrainingDay.specs, List.mem_append]; tauto)
    have h4 : ∀ s ∈ day.strength_workout.toList, 0 ≤ activity_tss s := fun s hs =>
      hnn s (by simp only [TrainingDay.specs, List.mem_append]; tauto)
    unfold generate_activities
    split_ifs with hgate
    · simpa using hplanned
    · simp only [planned_spec_tss, TrainingDay.specs, List.map_append, List.sum_append]
      exact add_le_add (add_le_add (add_le_add
        (workout_activities_sum_le _ _ h1) (workout_activities_sum_le _ _ h2))
        (workout_activities_sum_le _ _ h3)) (workout_activities_sum_le _ _ h4)
  · intro sport tss phase j
    exact activity_tss_nonneg _ (generate_workout_spec_duration_nonneg sport tss phase j)

/-- Witness for C5 (amended) on the clamped swim day: the realized load
49/3 does respect the spec-implied bound. -/
theorem realized_load_le_spec_implied_witness :
    (∀ spec ∈ (⟨⟨2024, 4, 2⟩, TrainingPhase.Build, 10, 2, 0, 0, 0,
        some (generate_workout_spec Sport.Swim 2 TrainingPhase.Build (-1/20)),
        none, none, none, false, false⟩ : TrainingDay).specs, 0 ≤ activity_tss spec) ∧
    (generate_activities ⟨0.5, ⟨1⟩⟩
        ⟨⟨2024, 4, 2⟩, TrainingPhase.Build, 10, 2, 0, 0, 0,
          some (generate_workout_spec Sport.Swim 2 TrainingPhase.Build (-1/20)),
          none, none, none, false, false⟩ 1 true true true true).2 ≤
      planned_spec_tss ⟨⟨2024, 4, 2⟩, TrainingPhase.Build, 10, 2, 0, 0, 0,
        some (generate_workout_spec Sport.Swim 2 TrainingPhase.Build (-1/20)),
        none, none, none, false, false⟩ :=
  have hnn : ∀ spec ∈ (⟨⟨2024, 4, 2⟩, TrainingPhase.Build, 10, 2, 0, 0, 0,
      some (generate_workout_spec Sport.Swim 2 TrainingPhase.Build (-1/20)),
      none, none, none, false, false⟩ : TrainingDay).specs, 0 ≤ activity_tss spec := by
    intro spec hspec
    simp only [TrainingDay.specs, Option.toList_some, Option.toList_none, List.append_nil,
      List.nil_append, List.mem_singleton] at hspec
    rw [hspec]
    exact (realized_load_le_spec_implied.2 Sport.Swim 2 TrainingPhase.Build (-1/20))
  ⟨hnn,
   realized_load_le_spec_implied.1 ⟨0.5, ⟨1⟩⟩
     ⟨⟨2024, 4, 2⟩, TrainingPhase.Build, 10, 2, 0, 0, 0,
       some (generate_workout_spec Sport.Swim 2 TrainingPhase.Build (-1/20)),
       none, none, none, false, false⟩ 1 true true true true hnn⟩

/-! ## C2: reproducibility under parallelism -/

/-- A completed task is found in the completion log with its own value,
whatever the completion order was. -/
theorem find_completion_log {α : Type} (f : ℕ → α) (order : List ℕ) (i : ℕ)
    (hi : i ∈ order) :
    (completion_log f order).find? (fun p => p.1 == i) = some (i, f i) := by
  induction order with
  | nil => exact absurd hi (List.not_mem_nil i)
  | cons j rest ih =>
    rcases List.mem_cons.mp hi with h | h
    · subst h
      simp [completion_log]
    · by_cases hj : j = i
      · subst hj
        simp [completion_log]
      · rw [completion_log, List.map_cons, List.find?_cons_of_neg _ (by simp [hj])]
        exact ih h
    
/-- A parallel map whose completion order covers every index collects to
the sequential map, for every completion order. -/
theorem par_map_covers {α : Type} (n : ℕ) (f : ℕ → α) (order : List ℕ)
    (h : ∀ i < n, i ∈ order) :
    par_map n f order = (List.range n).map (fun i => some (f i)) := by
  unfold par_map collect_by_index
  apply List.map_congr_left
  intro i hi
  rw [find_completion_log f order i (h i (List.mem_range.mp hi))]
  rfl

/-- A parallel run with a fixed per-index entropy assignment is
schedule-independent: for every pool width and every pair of covering
completion orders, `generate_dataset_parallel` collects to the
index-ordered sequential map.  This is the residual truth of the
reproducibility design: the only nondeterminism left is the UUID entropy
itself. -/
theorem dataset_parallel_schedule_independent {α β : Type} (gen : ℕ → α)
    (simYear : α → ℕ → β) (n : ℕ) (year : ℤ) (seed : ℕ)
    (uuid_entropy : ℕ → List ℕ) (t : ℕ) (po so : List ℕ)
    (hpo : ∀ i < n, i ∈ po) (hso : ∀ i < n, i ∈ so) :
    generate_dataset_parallel gen simYear ⟨n, year, seed, t⟩ uuid_entropy po so =
      (List.range n).map (fun i =>
        some (simulate_full_year_with_config simYear
          (generate_athlete_profile_with_config gen (wrapping_add_u64 seed i) (uuid_entropy i))
          seed)) := by
  show (par_map n (fun i => Option.map
      (fun a => simulate_full_year_with_config simYear a seed)
      ((par_map n (fun j => generate_athlete_profile_with_config gen
        (wrapping_add_u64 seed j) (uuid_entropy j)) po).getD i none)) so).map
      (fun r => r.getD none) =
    (List.range n).map (fun i =>
      some (simulate_full_year_with_config simYear
        (generate_athlete_profile_with_config gen (wrapping_add_u64 seed i) (uuid_entropy i))
        seed))
  rw [par_map_covers n _ po hpo, par_map_covers n _ so hso, List.map_map]
  apply List.map_congr_left
  intro i hi
  have hlt : i < n := List.mem_range.mp hi
  have hgd : ((List.range n).map (fun j => some (generate_athlete_profile_with_config gen
      (wrapping_add_u64 seed j) (uuid_entropy j)))).getD i none
      = some (generate_athlete_profile_with_config gen (wrapping_add_u64 seed i)
          (uuid_entropy i)) := by
    rw [List.getD_eq_getElem?_getD, List.getElem?_map, List.getElem?_range hlt]
    rfl
  simp only [Function.comp_apply, Option.getD_some]
  rw [hgd]
  rfl

/-- C2 (code bug): the claim states the reproducibility requirement the
design documents itself as meeting (the profile generator is headed
"Generate a complete athlete profile with deterministic seed" and
`SimulationConfig.seed` is "Random seed for reproducibility"), but the
code breaks it: the athlete id is drawn as `Uuid::new_v4()` from OS
entropy (athlete/generator.rs:225), outside the seeded `ChaCha8Rng`, and
that id both appears in every output row and feeds the plan and
year-simulation seeds.  This theorem evaluates the pipeline at the
failing input `seed = 42, n_athletes = 1` under one and the same
completion schedule with two admissible UUID draws (a first id byte of
48 vs 49): the derived year-simulation seeds differ, and the resulting
datasets differ — the dataset is not a function of
`(seed, n_athletes, year, params)`, so two runs (whatever their pool
widths) need not agree. -/
theorem dataset_uuid_nondeterminism :
    athlete_sim_seed 42 [48] ≠ athlete_sim_seed 42 [49] ∧
    generate_dataset_parallel (fun s => s) (fun a s => a + s) ⟨1, 2024, 42, 1⟩
        (fun _ => [48]) [0] [0] ≠
      generate_dataset_parallel (fun s => s) (fun a s => a + s) ⟨1, 2024, 42, 1⟩
        (fun _ => [49]) [0] [0] :=
  ⟨by decide, by decide⟩
